import Mathlib

/-!
Shallow embedding of the approval-queue pipeline of the
genie-in-the-bottle repository.

The embedding follows the Python source:
  backend/src/database/handle_tweets_data.py  (store operations)
  backend/src/telegram/bot.py                 (webhook payload parsing)
  backend/src/main.py                         (telegram_webhook handler)
  backend/src/substack_processor.py           (pull ingestion run)

The Postgres table gib_tweets is modelled as a list of rows in insertion
order together with the next serial id.  Timestamps (created_at, set by
the database NOW() default) are modelled as natural numbers supplied by
the caller of each insert; updated_at is not modelled since no claim
mentions it.  Network effects (the Telegram send, the X post) are
modelled by outcome parameters, and the rows the database returns for
underdetermined queries (ORDER BY created_at with possible ties) are
modelled by a choice parameter constrained to the set of rows the SQL
query permits.
-/

namespace Genie

/-- Row of the gib_tweets table (one CandidateItem).  Columns follow the
INSERT in create_tweet_record: article_id, article_title, tweet_text,
web_url, approval_status, post_status, telegram_message_id, plus the
serial id, the x_tweet_id column written by update_post_status, and the
created_at timestamp used for FIFO ordering. -/
structure TweetRow where
  id : Nat
  article_id : String
  article_title : String
  tweet_text : String
  web_url : String
  approval_status : String
  post_status : String
  telegram_message_id : Option String
  x_tweet_id : Option String
  created_at : Nat
deriving DecidableEq

/-- The gib_tweets table: rows in insertion order and the next serial id. -/
structure Store where
  rows : List TweetRow
  nextId : Nat
deriving DecidableEq

/-- Well-formedness of the table as Postgres maintains it: the serial
primary key makes ids unique, and every existing id is below the next
serial value. -/
def Store.WF (s : Store) : Prop :=
  (s.rows.map (fun r => r.id)).Nodup ∧ ∀ r ∈ s.rows, r.id < s.nextId

instance (s : Store) : Decidable s.WF := by
  unfold Store.WF
  infer_instance

/-- UPDATE ... WHERE id = rid, applying f to every row whose id matches.
Common shape of the three UPDATE statements in handle_tweets_data.py. -/
def updateRow (s : Store) (rid : Nat) (f : TweetRow → TweetRow) : Store :=
  { s with rows := s.rows.map (fun r => if r.id = rid then f r else r) }

/-- create_tweet_record: INSERT a row with the given fields, post_status
column set to the literal value pending by the VALUES clause, x_tweet_id
not inserted (NULL), RETURNING id.  created_at is the NOW() timestamp,
passed in as t. -/
def create_tweet_record (s : Store) (article_id article_title tweet_text web_url : String)
    (telegram_message_id : Option String) (approval_status : String) (t : Nat) :
    Store × Nat :=
  let r : TweetRow :=
    { id := s.nextId
      article_id := article_id
      article_title := article_title
      tweet_text := tweet_text
      web_url := web_url
      approval_status := approval_status
      post_status := "pending"
      telegram_message_id := telegram_message_id
      x_tweet_id := none
      created_at := t }
  ({ rows := s.rows ++ [r], nextId := s.nextId + 1 }, s.nextId)

/-- update_approval_status: UPDATE SET approval_status WHERE id = rid. -/
def update_approval_status (s : Store) (rid : Nat) (st : String) : Store :=
  updateRow s rid (fun r => { r with approval_status := st })

/-- update_post_status: UPDATE SET post_status, x_tweet_id WHERE id = rid.
The SQL always writes x_tweet_id, so the Python default None stores NULL. -/
def update_post_status (s : Store) (rid : Nat) (ps : String) (xid : Option String) : Store :=
  updateRow s rid (fun r => { r with post_status := ps, x_tweet_id := xid })

/-- update_telegram_message_id: UPDATE SET telegram_message_id WHERE id = rid. -/
def update_telegram_message_id (s : Store) (rid : Nat) (mid : String) : Store :=
  updateRow s rid (fun r => { r with telegram_message_id := some mid })

/-- get_tweet_by_telegram_message_id: SELECT * WHERE telegram_message_id = mid
LIMIT 1.  The query has no ORDER BY; with the reviewMessageId unique this is
the unique matching row, modelled as the first match in insertion order. -/
def get_tweet_by_telegram_message_id (s : Store) (mid : String) : Option TweetRow :=
  s.rows.find? (fun r => r.telegram_message_id = some mid)

/-- Lookup of a row by primary key. -/
def getById (s : Store) (rid : Nat) : Option TweetRow :=
  s.rows.find? (fun r => r.id = rid)

/-- approval_status of the row with the given id, when present. -/
def statusOf (s : Store) (rid : Nat) : Option String :=
  (getById s rid).map (fun r => r.approval_status)

/-- post_status of the row with the given id, when present. -/
def postStatusOf (s : Store) (rid : Nat) : Option String :=
  (getById s rid).map (fun r => r.post_status)

/-- The set of rows that get_earliest_queued_tweet (SELECT * WHERE
approval_status = queued ORDER BY created_at ASC LIMIT 1) may return:
a stored queued row whose created_at is minimal among queued rows.  The
query orders by created_at only, so when several queued rows share the
minimal created_at any of them is a permitted result. -/
def validEarliestQueued (s : Store) (r : TweetRow) : Prop :=
  r ∈ s.rows ∧ r.approval_status = "queued" ∧
    ∀ r2 ∈ s.rows, r2.approval_status = "queued" → r.created_at ≤ r2.created_at

instance (s : Store) (r : TweetRow) : Decidable (validEarliestQueued s r) := by
  unfold validEarliestQueued
  infer_instance

/-- get_all_existing_web_urls: SELECT DISTINCT web_url WHERE web_url IS NOT
NULL.  Only membership in the result set is ever used, so the projection of
all rows serves as the set. -/
def get_all_existing_web_urls (s : Store) : List String :=
  s.rows.map (fun r => r.web_url)

/-- The COUNT query of the helper checking for rows with approval_status
pending, reduced to the Boolean the caller tests. -/
def is_any_tweet_pending (s : Store) : Bool :=
  s.rows.any (fun r => r.approval_status = "pending")

/-- Number of rows with approval_status pending. -/
def pendingCount (s : Store) : Nat :=
  s.rows.countP (fun r => r.approval_status = "pending")

/-- Number of rows whose web_url equals u. -/
def countUrl (s : Store) (u : String) : Nat :=
  s.rows.countP (fun r => r.web_url = u)

/-- Outcome of the Telegram send inside promotion: either the message id
returned by send_tweet_for_approval, or the send raised. -/
inductive SendOutcome where
  | ok (message_id : String)
  | err
deriving DecidableEq

/-- send_earliest_queued_tweet_for_approval.  Returns early when some row
is already pending.  Otherwise, inside a try block: fetch the earliest
queued row (the database choice is the pick argument; none models the
no-queued-rows result), send it to Telegram (outcome oc), store the
returned message id, and set the row pending.  The except clause catches
every exception and only logs it, so the function never propagates an
error: every branch yields Except.ok. -/
def send_earliest_queued_tweet_for_approval (s : Store) (pick : Option TweetRow)
    (oc : SendOutcome) : Except String Store :=
  if is_any_tweet_pending s then Except.ok s
  else
    match pick with
    | none => Except.ok s
    | some r =>
      match oc with
      | SendOutcome.err => Except.ok s
      | SendOutcome.ok mid =>
        Except.ok (update_approval_status (update_telegram_message_id s r.id mid) r.id "pending")

/-- The store after a promotion attempt (the function never raises, so the
error branch is unreachable). -/
def promoteStore (s : Store) (pick : Option TweetRow) (oc : SendOutcome) : Store :=
  match send_earliest_queued_tweet_for_approval s pick oc with
  | Except.ok s2 => s2
  | Except.error _ => s

/-- A database pick function is valid when every row it returns is one the
earliest-queued SQL query permits for the queried store. -/
def PickValid (pick : Store → Option TweetRow) : Prop :=
  ∀ s r, pick s = some r → validEarliestQueued s r

/-! Telegram webhook payload parsing, from backend/src/telegram/bot.py. -/

/-- A Telegram message object as the parser inspects it.  Each field is
optional because the Python code reads a dict: message_id and the chat id
are accessed with square brackets (a missing key raises, which the
surrounding except turns into None), text presence is tested explicitly,
and reply_to_message is read with get defaults.  The outer Option of
reply_to_message is key presence; the inner one is presence of message_id
inside it. -/
structure TgMessage where
  message_id : Option Nat
  text : Option String
  reply_to_message : Option (Option Nat)
  chat_id : Option Nat
deriving DecidableEq

/-- A Telegram update payload: the parser only asks whether the key
message is present. -/
structure TgUpdate where
  message : Option TgMessage
deriving DecidableEq

/-- The dict parse_telegram_webhook returns on success. -/
structure TgParsed where
  message_id : String
  text : String
  reply_to_message_id : String
  chat_id : String
deriving DecidableEq

/-- parse_telegram_webhook: None when the payload has no message key or the
message has no text key; otherwise builds the result dict.  Reading
message_id or the chat id raises KeyError when absent, which the except
clause turns into None.  reply_to_message_id uses get with defaults, so a
missing reply (or a reply lacking message_id) yields the empty string, not
None. -/
def parse_telegram_webhook (w : TgUpdate) : Option TgParsed :=
  match w.message with
  | none => none
  | some m =>
    match m.text with
    | none => none
    | some t =>
      match m.message_id, m.chat_id with
      | some mid, some cid =>
        let rto : String :=
          match m.reply_to_message with
          | some (some rid) => toString rid
          | some none => ""
          | none => ""
        some { message_id := toString mid, text := t,
               reply_to_message_id := rto, chat_id := toString cid }
      | some _, none => none
      | none, _ => none

/-! The telegram_webhook handler, from backend/src/main.py. -/

/-- Outbound status notifications the handler sends. -/
inductive Notification where
  | posted (xid : String)
  | postFailed (e : String)
deriving DecidableEq

/-- Observable outcome of one telegram_webhook invocation: the resulting
store, the HTTP status and response message (raising HTTPException gives
its status code), the texts passed to post_tweet in order, how many times
send_earliest_queued_tweet_for_approval was invoked, and the notifications
sent. -/
structure WebhookResult where
  store : Store
  status : Nat
  body : String
  posts : List String
  promoteCalls : Nat
  notifications : List Notification
deriving DecidableEq

/-- Result of the early-return branches: store untouched, HTTP 200, no
side effects. -/
def noopResult (s : Store) (msg : String) : WebhookResult :=
  { store := s, status := 200, body := msg, posts := [], promoteCalls := 0,
    notifications := [] }

/-- Python str.lower applied to the reply text, mapping characters to
lowercase (the reply keywords are ASCII). -/
def pyLower (s : String) : String := ⟨s.data.map Char.toLower⟩

/-- Python str.strip applied to the reply text: drop whitespace from both
ends. -/
def pyStrip (s : String) : String :=
  ⟨((s.data.dropWhile Char.isWhitespace).reverse.dropWhile Char.isWhitespace).reverse⟩

/-- The reply texts classified as reject. -/
def rejectTexts : List String := ["/reject", "reject", "no"]

/-- The reply texts classified as approve-with-original-text. -/
def approveTexts : List String := ["/approve", "approve", "yes"]

/-- Append web URL if available: the handler suffixes a newline and the
URL when the stored web_url is truthy (nonempty). -/
def appendWebUrl (text url : String) : String :=
  if url = "" then text else text ++ "\n" ++ url

/-- The tail of telegram_webhook once a tweet record has been matched:
strip and lowercase the reply, reject or approve, post, record the
outcome, and promote.  po is the outcome of post_tweet; pick gives, for
whatever store the promotion reads, the row the earliest-queued query
returns; oc is the outcome of the Telegram send inside the promotion.  In
the reject branch the status is set to rejected and the queue advances.
Otherwise the status is set to approved before the text is chosen, the
reply text replaces the stored text unless it matches the approve set,
the web URL is appended when present, and post_tweet is attempted.  On
success the row is marked posted with the returned id, a success
notification is sent, and the queue advances.  On failure the row is
marked failed (x_tweet_id NULL), a failure notification is sent, and
HTTPException 500 is raised with no promotion. -/
def resolveReply (s : Store) (md : TgParsed) (rec : TweetRow)
    (po : Except String String) (pick : Store → Option TweetRow)
    (oc : SendOutcome) : WebhookResult :=
  if pyLower (pyStrip md.text) ∈ rejectTexts then
    { store :=
        promoteStore (update_approval_status s rec.id "rejected")
          (pick (update_approval_status s rec.id "rejected")) oc,
      status := 200, body := "Tweet rejected", posts := [], promoteCalls := 1,
      notifications := [] }
  else
    match po with
    | Except.ok xid =>
      { store :=
          promoteStore
            (update_post_status (update_approval_status s rec.id "approved")
              rec.id "posted" (some xid))
            (pick (update_post_status (update_approval_status s rec.id "approved")
              rec.id "posted" (some xid))) oc,
        status := 200, body := "Tweet posted",
        posts := [appendWebUrl (if pyLower (pyStrip md.text) ∈ approveTexts then
          rec.tweet_text else pyStrip md.text) rec.web_url],
        promoteCalls := 1, notifications := [Notification.posted xid] }
    | Except.error e =>
      { store := update_post_status (update_approval_status s rec.id "approved")
          rec.id "failed" none,
        status := 500, body := "Failed to post tweet to X",
        posts := [appendWebUrl (if pyLower (pyStrip md.text) ∈ approveTexts then
          rec.tweet_text else pyStrip md.text) rec.web_url],
        promoteCalls := 0, notifications := [Notification.postFailed e] }

/-- telegram_webhook: parse the payload (non-message updates return 200
with an informational body), require a reply correlation id (falsy, i.e.
empty, returns 200), look up the tweet record by the replied-to message
id (no match returns 200), then resolve the reply. -/
def telegram_webhook (s : Store) (w : TgUpdate) (po : Except String String)
    (pick : Store → Option TweetRow) (oc : SendOutcome) : WebhookResult :=
  match parse_telegram_webhook w with
  | none => noopResult s "Not a message update"
  | some md =>
    if md.reply_to_message_id = "" then noopResult s "Not a reply to a tweet"
    else
      match get_tweet_by_telegram_message_id s md.reply_to_message_id with
      | none => noopResult s "Tweet record not found"
      | some rec => resolveReply s md rec po pick oc

/-! Pull ingestion, from backend/src/substack_processor.py. -/

/-- A feed entry as the ingestion loop reads it: the title doubles as the
article id, the link is the source URL. -/
structure Article where
  title : String
  link : String
deriving DecidableEq

/-- Per-tweet body of the ingestion loop: skip empty tweet texts, create
one record otherwise, with approval_status queued, article_id and
article_title both the feed title, and web_url the link. -/
def ingestTweet (title link : String) (t : Nat) (acc : Store) (tw : String) :
    Store :=
  if tw = "" then acc
  else (create_tweet_record acc title title tw link none "queued" t).1

/-- Per-article body of the ingestion loop: skip articles with an empty
link, then create records for each generated tweet text. -/
def ingestArticle (gen : Article → List String) (t : Nat) (acc : Store)
    (a : Article) : Store :=
  if a.link = "" then acc
  else (gen a).foldl (ingestTweet a.title a.link t) acc

/-- The ingestion core of process_substack_feeds.  The aggregated feed
entries arrive as articles; generation (generate_tweet_single, whose
output list may hold several tweet texts for one article) is the gen
parameter; t is the created_at timestamp of the run.  The existing URL
set is loaded once at the start of the run; articles whose link is in it
are filtered out; each remaining article is ingested in order.  The
trailing promotion call creates no rows and is covered by the promotion
model separately. -/
def process_substack_feeds (s : Store) (articles : List Article)
    (gen : Article → List String) (t : Nat) : Store :=
  (articles.filter
      (fun a => ¬ a.link ∈ get_all_existing_web_urls s)).foldl
    (ingestArticle gen t) s

/-! Step relation for the queue state machine: the operations the
single-pending claim quantifies over. -/

/-- One step of the queue state machine: either an enqueue
(create_tweet_record with approval_status queued, as both ingestion paths
call it), or a promotion attempt, whose database pick must be a row the
earliest-queued query can return (none only when no queued row exists). -/
inductive Step : Store → Store → Prop where
  | enqueue (s : Store) (aid atitle ttext url : String) (t : Nat) :
      Step s (create_tweet_record s aid atitle ttext url none "queued" t).1
  | promote (s : Store) (pick : Option TweetRow) (oc : SendOutcome)
      (hsome : ∀ r, pick = some r → validEarliestQueued s r)
      (hnone : pick = none → ∀ r ∈ s.rows, r.approval_status ≠ "queued") :
      Step s (promoteStore s pick oc)

/-- Stores reachable from s0 by enqueue and promotion steps. -/
inductive Reach (s0 : Store) : Store → Prop where
  | refl : Reach s0 s0
  | step {s s2 : Store} : Reach s0 s → Step s s2 → Reach s0 s2

/-! Concrete scenarios used by counterexamples and witnesses. -/

/-- A tweet record under review: pending, already sent to Telegram with
message id 100. -/
def rowA : TweetRow :=
  { id := 1, article_id := "a1", article_title := "T", tweet_text := "orig",
    web_url := "http://u", approval_status := "pending", post_status := "pending",
    telegram_message_id := some "100", x_tweet_id := none, created_at := 0 }

/-- A store holding just the record under review. -/
def sA : Store := { rows := [rowA], nextId := 2 }

/-- An inbound Telegram reply saying yes to review message 100. -/
def payloadA : TgUpdate :=
  { message := some { message_id := some 7, text := some "yes",
                      reply_to_message := some (some 100), chat_id := some 5 } }

/-- An inbound Telegram reply saying no to review message 100. -/
def payloadReject : TgUpdate :=
  { message := some { message_id := some 8, text := some "no",
                      reply_to_message := some (some 100), chat_id := some 5 } }

/-- An inbound Telegram reply to review message 100 whose text is only
whitespace. -/
def payloadWs : TgUpdate :=
  { message := some { message_id := some 9, text := some "   ",
                      reply_to_message := some (some 100), chat_id := some 5 } }

/-- A text-message update with the given message id, chat id, text and
optional replied-to message id. -/
def mkMsgPayload (mid cid : Nat) (t : String) (rto : Option (Option Nat)) :
    TgUpdate :=
  { message := some { message_id := some mid, text := some t,
                      reply_to_message := rto, chat_id := some cid } }

/-- A text message that is not a reply to anything. -/
def payloadNR : TgUpdate :=
  { message := some { message_id := some 7, text := some "hello",
                      reply_to_message := none, chat_id := some 5 } }

/-- A pick function modelling a database with no queued rows to return. -/
def pickNone : Store → Option TweetRow := fun _ => none

/-- Two queued rows sharing the same created_at (a FIFO tie). -/
def rowTie1 : TweetRow :=
  { id := 1, article_id := "a1", article_title := "T1", tweet_text := "t1",
    web_url := "http://u1", approval_status := "queued", post_status := "pending",
    telegram_message_id := none, x_tweet_id := none, created_at := 5 }

/-- Second queued row with the same created_at as rowTie1 but larger id. -/
def rowTie2 : TweetRow :=
  { id := 2, article_id := "a2", article_title := "T2", tweet_text := "t2",
    web_url := "http://u2", approval_status := "queued", post_status := "pending",
    telegram_message_id := none, x_tweet_id := none, created_at := 5 }

/-- Store with two queued rows tied on created_at. -/
def sTie : Store := { rows := [rowTie1, rowTie2], nextId := 3 }

/-- Queued row with the strictly oldest created_at. -/
def rowD1 : TweetRow :=
  { id := 1, article_id := "a1", article_title := "T1", tweet_text := "t1",
    web_url := "http://u1", approval_status := "queued", post_status := "pending",
    telegram_message_id := none, x_tweet_id := none, created_at := 3 }

/-- Younger queued row. -/
def rowD2 : TweetRow :=
  { id := 2, article_id := "a2", article_title := "T2", tweet_text := "t2",
    web_url := "http://u2", approval_status := "queued", post_status := "pending",
    telegram_message_id := none, x_tweet_id := none, created_at := 7 }

/-- Store with two queued rows with distinct created_at and nothing
pending. -/
def sD : Store := { rows := [rowD1, rowD2], nextId := 3 }

/-- A feed article carrying the source URL u. -/
def articleU : Article := { title := "A", link := "u" }

/-- A record with web_url u already present before the witness run. -/
def rowU : TweetRow :=
  { id := 1, article_id := "A", article_title := "A", tweet_text := "t0",
    web_url := "u", approval_status := "queued", post_status := "pending",
    telegram_message_id := none, x_tweet_id := none, created_at := 0 }

/-- Store already holding one record with web_url u. -/
def sU : Store := { rows := [rowU], nextId := 2 }

/-- The empty store. -/
def s0W : Store := { rows := [], nextId := 0 }

/-- The row enqueued into the empty store by the witness scenario of the
single-pending invariant. -/
def rowW : TweetRow :=
  { id := 0, article_id := "a", article_title := "t", tweet_text := "x",
    web_url := "u", approval_status := "queued", post_status := "pending",
    telegram_message_id := none, x_tweet_id := none, created_at := 0 }

/-- The witness store after one enqueue step. -/
def s1W : Store := (create_tweet_record s0W "a" "t" "x" "u" none "queued" 0).1

/-- The witness store after enqueue and a successful promotion. -/
def s2W : Store := promoteStore s1W (some rowW) (SendOutcome.ok "m")

/-! Helper lemmas about the store operations. -/

lemma find?_map_of_id (l : List TweetRow) (rid rid2 : Nat)
    (f : TweetRow → TweetRow) (hf : ∀ r, (f r).id = r.id) :
    (l.map (fun r => if r.id = rid then f r else r)).find?
        (fun r => r.id = rid2) =
      (l.find? (fun r => r.id = rid2)).map
        (fun r => if r.id = rid then f r else r) := by
  induction l with
  | nil => rfl
  | cons a l ih =>
    have hg : (if a.id = rid then f a else a).id = a.id := by
      by_cases h : a.id = rid <;> simp [h, hf]
    by_cases hpa : a.id = rid2
    · rw [List.map_cons, List.find?_cons_of_pos _ (by simpa [hg] using hpa),
        List.find?_cons_of_pos _ (by simpa using hpa)]
      rfl
    · rw [List.map_cons, List.find?_cons_of_neg _ (by simp [hg, hpa]),
        List.find?_cons_of_neg _ (by simp [hpa]), ih]

lemma getById_updateRow (s : Store) (rid rid2 : Nat) (f : TweetRow → TweetRow)
    (hf : ∀ r, (f r).id = r.id) :
    getById (updateRow s rid f) rid2 =
      (getById s rid2).map (fun r => if r.id = rid then f r else r) :=
  find?_map_of_id s.rows rid rid2 f hf

lemma getById_some_id {s : Store} {rid : Nat} {r : TweetRow}
    (h : getById s rid = some r) : r.id = rid := by
  have := List.find?_some h
  simpa using this

lemma getById_some_mem {s : Store} {rid : Nat} {r : TweetRow}
    (h : getById s rid = some r) : r ∈ s.rows :=
  List.mem_of_find?_eq_some h

lemma tweet_by_mid_mem {s : Store} {mid : String} {r : TweetRow}
    (h : get_tweet_by_telegram_message_id s mid = some r) : r ∈ s.rows :=
  List.mem_of_find?_eq_some h

lemma getById_of_mem {s : Store} {r : TweetRow} (hwf : s.WF) (hr : r ∈ s.rows) :
    getById s r.id = some r := by
  obtain ⟨h1, _⟩ := hwf
  suffices h : ∀ l : List TweetRow, (l.map (fun r => r.id)).Nodup → r ∈ l →
      l.find? (fun x => x.id = r.id) = some r from h s.rows h1 hr
  intro l
  induction l with
  | nil => intro _ hm; cases hm
  | cons a l ih =>
    intro hn hm
    rw [List.map_cons, List.nodup_cons] at hn
    by_cases h : a.id = r.id
    · have hra : a = r := by
        rcases List.mem_cons.mp hm with h2 | h2
        · exact h2.symm
        · exact absurd (h ▸ List.mem_map_of_mem (fun x => x.id) h2) hn.1
      rw [List.find?_cons_of_pos _ (by simp [h]), hra]
    · rw [List.find?_cons_of_neg _ (by simp [h])]
      rcases List.mem_cons.mp hm with h2 | h2
      · exact absurd (by rw [h2]) h
      · exact ih hn.2 h2

lemma statusOf_updateRow_self (s : Store) (rid : Nat) (f : TweetRow → TweetRow)
    (r : TweetRow) (hf : ∀ x, (f x).id = x.id) (h : getById s rid = some r) :
    statusOf (updateRow s rid f) rid = some (f r).approval_status := by
  unfold statusOf
  rw [getById_updateRow s rid rid f hf, h]
  simp [getById_some_id h]

lemma statusOf_updateRow_preserve (s : Store) (rid rid2 : Nat)
    (f : TweetRow → TweetRow) (hf : ∀ x, (f x).id = x.id)
    (hst : ∀ x, (f x).approval_status = x.approval_status) :
    statusOf (updateRow s rid f) rid2 = statusOf s rid2 := by
  unfold statusOf
  rw [getById_updateRow s rid rid2 f hf]
  cases h : getById s rid2 with
  | none => rfl
  | some r => by_cases h2 : r.id = rid <;> simp [h2, hst]

lemma statusOf_updateRow_other (s : Store) (rid rid2 : Nat)
    (f : TweetRow → TweetRow) (hf : ∀ x, (f x).id = x.id) (h : rid2 ≠ rid) :
    statusOf (updateRow s rid f) rid2 = statusOf s rid2 := by
  unfold statusOf
  rw [getById_updateRow s rid rid2 f hf]
  cases hg : getById s rid2 with
  | none => rfl
  | some r =>
    have hid : r.id = rid2 := getById_some_id hg
    simp [hid, h]

lemma postStatusOf_updateRow_self (s : Store) (rid : Nat)
    (f : TweetRow → TweetRow) (r : TweetRow) (hf : ∀ x, (f x).id = x.id)
    (h : getById s rid = some r) :
    postStatusOf (updateRow s rid f) rid = some (f r).post_status := by
  unfold postStatusOf
  rw [getById_updateRow s rid rid f hf, h]
  simp [getById_some_id h]

lemma postStatusOf_updateRow_preserve (s : Store) (rid rid2 : Nat)
    (f : TweetRow → TweetRow) (hf : ∀ x, (f x).id = x.id)
    (hst : ∀ x, (f x).post_status = x.post_status) :
    postStatusOf (updateRow s rid f) rid2 = postStatusOf s rid2 := by
  unfold postStatusOf
  rw [getById_updateRow s rid rid2 f hf]
  cases h : getById s rid2 with
  | none => rfl
  | some r => by_cases h2 : r.id = rid <;> simp [h2, hst]

lemma statusOf_update_approval_self {s : Store} {rid : Nat} (st : String)
    {r : TweetRow} (h : getById s rid = some r) :
    statusOf (update_approval_status s rid st) rid = some st :=
  statusOf_updateRow_self s rid (fun x => { x with approval_status := st }) r
    (fun _ => rfl) h

lemma statusOf_update_post (s : Store) (rid rid2 : Nat) (ps : String)
    (xid : Option String) :
    statusOf (update_post_status s rid ps xid) rid2 = statusOf s rid2 :=
  statusOf_updateRow_preserve s rid rid2
    (fun x => { x with post_status := ps, x_tweet_id := xid })
    (fun _ => rfl) (fun _ => rfl)

lemma statusOf_update_tmi (s : Store) (rid rid2 : Nat) (mid : String) :
    statusOf (update_telegram_message_id s rid mid) rid2 = statusOf s rid2 :=
  statusOf_updateRow_preserve s rid rid2
    (fun x => { x with telegram_message_id := some mid })
    (fun _ => rfl) (fun _ => rfl)

lemma statusOf_update_approval_other (s : Store) (rid rid2 : Nat) (st : String)
    (h : rid2 ≠ rid) :
    statusOf (update_approval_status s rid st) rid2 = statusOf s rid2 :=
  statusOf_updateRow_other s rid rid2 (fun x => { x with approval_status := st })
    (fun _ => rfl) h

lemma postStatusOf_update_approval (s : Store) (rid rid2 : Nat) (st : String) :
    postStatusOf (update_approval_status s rid st) rid2 = postStatusOf s rid2 :=
  postStatusOf_updateRow_preserve s rid rid2
    (fun x => { x with approval_status := st }) (fun _ => rfl) (fun _ => rfl)

lemma postStatusOf_update_post_self {s : Store} {rid : Nat} (ps : String)
    (xid : Option String) {r : TweetRow} (h : getById s rid = some r) :
    postStatusOf (update_post_status s rid ps xid) rid = some ps :=
  postStatusOf_updateRow_self s rid
    (fun x => { x with post_status := ps, x_tweet_id := xid }) r (fun _ => rfl) h

/-! Well-formedness preservation. -/

lemma WF_updateRow (s : Store) (rid : Nat) (f : TweetRow → TweetRow)
    (hf : ∀ x, (f x).id = x.id) (h : s.WF) : (updateRow s rid f).WF := by
  obtain ⟨h1, h2⟩ := h
  have hid : ∀ r : TweetRow, (if r.id = rid then f r else r).id = r.id := by
    intro r; by_cases hc : r.id = rid <;> simp [hc, hf]
  constructor
  · have hm : (updateRow s rid f).rows.map (fun r => r.id) =
        s.rows.map (fun r => r.id) := by
      unfold updateRow
      rw [List.map_map]
      exact List.map_congr_left (fun a _ => hid a)
    rw [hm]
    exact h1
  · intro r hr
    simp only [updateRow, List.mem_map] at hr
    obtain ⟨r0, hr0, hre⟩ := hr
    rw [← hre, hid r0]
    exact h2 r0 hr0

lemma WF_update_approval (s : Store) (rid : Nat) (st : String) (h : s.WF) :
    (update_approval_status s rid st).WF :=
  WF_updateRow s rid _ (fun _ => rfl) h

lemma WF_update_post (s : Store) (rid : Nat) (ps : String) (xid : Option String)
    (h : s.WF) : (update_post_status s rid ps xid).WF :=
  WF_updateRow s rid _ (fun _ => rfl) h

lemma WF_update_tmi (s : Store) (rid : Nat) (mid : String) (h : s.WF) :
    (update_telegram_message_id s rid mid).WF :=
  WF_updateRow s rid _ (fun _ => rfl) h

lemma WF_create (s : Store) (aid atitle ttext url : String) (tm : Option String)
    (ast : String) (t : Nat) (h : s.WF) :
    (create_tweet_record s aid atitle ttext url tm ast t).1.WF := by
  obtain ⟨h1, h2⟩ := h
  constructor
  · simp only [create_tweet_record, List.map_append, List.map_cons, List.map_nil]
    apply List.Nodup.append h1 (List.nodup_singleton _)
    intro x hx hx2
    simp only [List.mem_singleton] at hx2
    simp only [List.mem_map] at hx
    obtain ⟨r0, hr0, hre⟩ := hx
    exact absurd (hre.trans hx2) (Nat.ne_of_lt (h2 r0 hr0))
  · intro r hr
    simp only [create_tweet_record, List.mem_append, List.mem_singleton] at hr
    rcases hr with hr | hr
    · exact Nat.lt_succ_of_lt (h2 r hr)
    · rw [hr]
      exact Nat.lt_succ_self _

/-! pendingCount lemmas. -/

lemma is_any_tweet_pending_false_iff (s : Store) :
    is_any_tweet_pending s = false ↔ pendingCount s = 0 := by
  unfold is_any_tweet_pending pendingCount
  rw [List.countP_eq_zero, ← Bool.not_eq_true, List.any_eq_true]
  simp

lemma pendingCount_create (s : Store) (aid atitle ttext url : String)
    (tm : Option String) (t : Nat) :
    pendingCount (create_tweet_record s aid atitle ttext url tm "queued" t).1 =
      pendingCount s := by
  unfold pendingCount create_tweet_record
  rw [List.countP_append]
  simp

lemma countP_id_le_one (l : List TweetRow) (rid : Nat)
    (h : (l.map (fun r => r.id)).Nodup) :
    l.countP (fun r => r.id = rid) ≤ 1 := by
  induction l with
  | nil => simp
  | cons a l ih =>
    rw [List.map_cons, List.nodup_cons] at h
    rw [List.countP_cons]
    by_cases h2 : a.id = rid
    · have hz : l.countP (fun r => decide (r.id = rid)) = 0 := by
        rw [List.countP_eq_zero]
        intro b hb
        simp only [decide_eq_true_eq]
        intro hbid
        exact h.1 (by rw [h2, ← hbid]; exact List.mem_map_of_mem (fun x => x.id) hb)
      simp [hz, h2]
    · simp [h2]
      exact ih h.2

lemma pendingCount_updateRow_preserve (s : Store) (rid : Nat)
    (f : TweetRow → TweetRow)
    (hst : ∀ x, (f x).approval_status = x.approval_status) :
    pendingCount (updateRow s rid f) = pendingCount s := by
  unfold pendingCount updateRow
  rw [List.countP_map]
  apply List.countP_congr
  intro a _
  by_cases hc : a.id = rid <;> simp [hc, hst]

lemma pendingCount_update_pending_le (s : Store) (rid : Nat)
    (hwf : s.WF) (h0 : pendingCount s = 0) :
    pendingCount (update_approval_status s rid "pending") ≤ 1 := by
  unfold pendingCount update_approval_status updateRow
  rw [List.countP_map]
  unfold pendingCount at h0
  rw [List.countP_eq_zero] at h0
  refine le_trans (le_of_eq (List.countP_congr ?_)) (countP_id_le_one s.rows rid hwf.1)
  intro a ha
  simp only [Function.comp_apply, decide_eq_true_eq]
  by_cases hc : a.id = rid
  · simp [hc]
  · have ha2 := h0 a ha
    simp only [decide_eq_true_eq] at ha2
    simp [hc, ha2]

/-! Promotion lemmas. -/

lemma promoteStore_pending (s : Store) (pick : Option TweetRow) (oc : SendOutcome)
    (h : is_any_tweet_pending s = true) : promoteStore s pick oc = s := by
  unfold promoteStore send_earliest_queued_tweet_for_approval
  simp [h]

lemma promoteStore_none (s : Store) (oc : SendOutcome) :
    promoteStore s none oc = s := by
  unfold promoteStore send_earliest_queued_tweet_for_approval
  by_cases h : is_any_tweet_pending s <;> simp [h]

lemma promoteStore_err (s : Store) (pick : Option TweetRow) :
    promoteStore s pick SendOutcome.err = s := by
  unfold promoteStore send_earliest_queued_tweet_for_approval
  by_cases h : is_any_tweet_pending s <;> cases pick <;> simp [h]

lemma promoteStore_ok (s : Store) (r : TweetRow) (mid : String)
    (h : is_any_tweet_pending s = false) :
    promoteStore s (some r) (SendOutcome.ok mid) =
      update_approval_status (update_telegram_message_id s r.id mid) r.id
        "pending" := by
  unfold promoteStore send_earliest_queued_tweet_for_approval
  simp [h]

lemma pendingCount_update_tmi (s : Store) (rid : Nat) (mid : String) :
    pendingCount (update_telegram_message_id s rid mid) = pendingCount s :=
  pendingCount_updateRow_preserve s rid _ (fun _ => rfl)

lemma statusOf_promote_of_ne_queued (s : Store) (pick : Option TweetRow)
    (oc : SendOutcome) (rid : Nat) (hwf : s.WF)
    (hv : ∀ r, pick = some r → validEarliestQueued s r)
    (hne : statusOf s rid ≠ some "queued") :
    statusOf (promoteStore s pick oc) rid = statusOf s rid := by
  by_cases hp : is_any_tweet_pending s
  · rw [promoteStore_pending s pick oc hp]
  · cases pick with
    | none => rw [promoteStore_none]
    | some r =>
      cases oc with
      | err => rw [promoteStore_err]
      | ok mid =>
        rw [promoteStore_ok s r mid (by simpa using hp)]
        have hvr := hv r rfl
        have hrid : rid ≠ r.id := by
          intro hcontra
          apply hne
          have hb : getById s r.id = some r := getById_of_mem hwf hvr.1
          rw [hcontra]
          unfold statusOf
          rw [hb]
          simp [hvr.2.1]
        rw [statusOf_update_approval_other _ _ _ _ hrid, statusOf_update_tmi]

lemma WF_promote (s : Store) (pick : Option TweetRow) (oc : SendOutcome)
    (hwf : s.WF) : (promoteStore s pick oc).WF := by
  by_cases hp : is_any_tweet_pending s
  · rw [promoteStore_pending s pick oc hp]; exact hwf
  · cases pick with
    | none => rw [promoteStore_none]; exact hwf
    | some r =>
      cases oc with
      | err => rw [promoteStore_err]; exact hwf
      | ok mid =>
        rw [promoteStore_ok s r mid (by simpa using hp)]
        exact WF_update_approval _ _ _ (WF_update_tmi _ _ _ hwf)

lemma pendingCount_promote_le (s : Store) (pick : Option TweetRow)
    (oc : SendOutcome) (hwf : s.WF) (h : pendingCount s ≤ 1) :
    pendingCount (promoteStore s pick oc) ≤ 1 := by
  by_cases hp : is_any_tweet_pending s
  · rw [promoteStore_pending s pick oc hp]; exact h
  · have h0 : pendingCount s = 0 :=
      (is_any_tweet_pending_false_iff s).mp (by simpa using hp)
    cases pick with
    | none => rw [promoteStore_none]; exact h
    | some r =>
      cases oc with
      | err => rw [promoteStore_err]; exact h
      | ok mid =>
        rw [promoteStore_ok s r mid (by simpa using hp)]
        refine pendingCount_update_pending_le _ _ (WF_update_tmi _ _ _ hwf) ?_
        rw [pendingCount_update_tmi]
        exact h0

lemma WF_step {s s2 : Store} (hstep : Step s s2) (hwf : s.WF) : s2.WF := by
  cases hstep with
  | enqueue aid atitle ttext url t =>
    exact WF_create s aid atitle ttext url none "queued" t hwf
  | promote pick oc hsome hnone => exact WF_promote s pick oc hwf

lemma pendingCount_step {s s2 : Store} (hstep : Step s s2) (hwf : s.WF)
    (h : pendingCount s ≤ 1) : pendingCount s2 ≤ 1 := by
  cases hstep with
  | enqueue aid atitle ttext url t =>
    rw [pendingCount_create]
    exact h
  | promote pick oc hsome hnone => exact pendingCount_promote_le s pick oc hwf h

lemma reach_wf_pending {s0 s : Store} (hr : Reach s0 s) (hwf : s0.WF)
    (h : pendingCount s0 ≤ 1) : s.WF ∧ pendingCount s ≤ 1 := by
  induction hr with
  | refl => exact ⟨hwf, h⟩
  | step hreach hstep ih =>
    obtain ⟨ihwf, ihp⟩ := ih
    exact ⟨WF_step hstep ihwf, pendingCount_step hstep ihwf ihp⟩

/-! Handler unfolding lemmas. -/

lemma telegram_webhook_resolves (s : Store) (w : TgUpdate)
    (po : Except String String) (pick : Store → Option TweetRow)
    (oc : SendOutcome) (md : TgParsed) (rec : TweetRow)
    (hparse : parse_telegram_webhook w = some md)
    (hreply : md.reply_to_message_id ≠ "")
    (hrec : get_tweet_by_telegram_message_id s md.reply_to_message_id = some rec) :
    telegram_webhook s w po pick oc = resolveReply s md rec po pick oc := by
  simp only [telegram_webhook, hparse, hrec, if_neg hreply]

lemma resolveReply_reject (s : Store) (md : TgParsed) (rec : TweetRow)
    (po : Except String String) (pick : Store → Option TweetRow)
    (oc : SendOutcome) (h : pyLower (pyStrip md.text) ∈ rejectTexts) :
    resolveReply s md rec po pick oc =
      { store :=
          promoteStore (update_approval_status s rec.id "rejected")
            (pick (update_approval_status s rec.id "rejected")) oc,
        status := 200, body := "Tweet rejected", posts := [], promoteCalls := 1,
        notifications := [] } := by
  unfold resolveReply
  rw [if_pos h]

lemma resolveReply_ok (s : Store) (md : TgParsed) (rec : TweetRow) (xid : String)
    (pick : Store → Option TweetRow) (oc : SendOutcome)
    (h : pyLower (pyStrip md.text) ∉ rejectTexts) :
    resolveReply s md rec (Except.ok xid) pick oc =
      { store :=
          promoteStore
            (update_post_status (update_approval_status s rec.id "approved")
              rec.id "posted" (some xid))
            (pick (update_post_status (update_approval_status s rec.id "approved")
              rec.id "posted" (some xid))) oc,
        status := 200, body := "Tweet posted",
        posts := [appendWebUrl (if pyLower (pyStrip md.text) ∈ approveTexts then
          rec.tweet_text else pyStrip md.text) rec.web_url],
        promoteCalls := 1, notifications := [Notification.posted xid] } := by
  unfold resolveReply
  rw [if_neg h]

lemma resolveReply_error (s : Store) (md : TgParsed) (rec : TweetRow) (e : String)
    (pick : Store → Option TweetRow) (oc : SendOutcome)
    (h : pyLower (pyStrip md.text) ∉ rejectTexts) :
    resolveReply s md rec (Except.error e) pick oc =
      { store := update_post_status (update_approval_status s rec.id "approved")
          rec.id "failed" none,
        status := 500, body := "Failed to post tweet to X",
        posts := [appendWebUrl (if pyLower (pyStrip md.text) ∈ approveTexts then
          rec.tweet_text else pyStrip md.text) rec.web_url],
        promoteCalls := 0, notifications := [Notification.postFailed e] } := by
  unfold resolveReply
  rw [if_neg h]

/-! Ingestion lemmas. -/

lemma countUrl_create_ne (s : Store) (aid atitle ttext url : String)
    (tm : Option String) (ast : String) (t : Nat) (u : String) (h : url ≠ u) :
    countUrl (create_tweet_record s aid atitle ttext url tm ast t).1 u =
      countUrl s u := by
  unfold countUrl create_tweet_record
  rw [List.countP_append]
  simp [h]

lemma countUrl_ingestTweet (title link : String) (t : Nat) (u : String)
    (acc : Store) (tw : String) (h : link ≠ u) :
    countUrl (ingestTweet title link t acc tw) u = countUrl acc u := by
  unfold ingestTweet
  by_cases htw : tw = ""
  · simp [htw]
  · simp [htw, countUrl_create_ne _ _ _ _ _ _ _ _ _ h]

lemma countUrl_ingestTweets (title link : String) (t : Nat) (u : String)
    (h : link ≠ u) :
    ∀ (tws : List String) (acc : Store),
      countUrl (tws.foldl (ingestTweet title link t) acc) u = countUrl acc u := by
  intro tws
  induction tws with
  | nil => intro acc; rfl
  | cons tw tws ih =>
    intro acc
    rw [List.foldl_cons, ih, countUrl_ingestTweet title link t u acc tw h]

lemma countUrl_ingestArticle (gen : Article → List String) (t : Nat)
    (u : String) (acc : Store) (a : Article) (h : a.link ≠ u) :
    countUrl (ingestArticle gen t acc a) u = countUrl acc u := by
  unfold ingestArticle
  by_cases hl : a.link = ""
  · simp [hl]
  · simp [hl, countUrl_ingestTweets a.title a.link t u h]

lemma countUrl_ingestArticles (gen : Article → List String) (t : Nat)
    (u : String) :
    ∀ (l : List Article) (acc : Store), (∀ a ∈ l, a.link ≠ u) →
      countUrl (l.foldl (ingestArticle gen t) acc) u = countUrl acc u := by
  intro l
  induction l with
  | nil => intro acc _; rfl
  | cons a l ih =>
    intro acc hall
    rw [List.foldl_cons, ih _ (fun b hb => hall b (List.mem_cons_of_mem a hb)),
      countUrl_ingestArticle gen t u acc a (hall a (List.mem_cons_self a l))]

/-! Claim theorems. -/

/-- Claim C1 (confirmed): starting from any well-formed store in which at
most one row is pending, every sequence of enqueue
(create_tweet_record with approval_status queued) and promotion
(send_earliest_queued_tweet_for_approval) steps keeps the number of
pending rows at most one; and the promotion is a no-op whenever some row
is already pending. -/
theorem single_pending_invariant (s0 : Store) (hwf : s0.WF)
    (h0 : pendingCount s0 ≤ 1) :
    ∀ s, Reach s0 s → pendingCount s ≤ 1 ∧
      ∀ pick oc, is_any_tweet_pending s = true → promoteStore s pick oc = s := by
  intro s hr
  refine ⟨(reach_wf_pending hr hwf h0).2, ?_⟩
  intro pick oc hp
  exact promoteStore_pending s pick oc hp

/-- Witness for C1: the store obtained from the empty store by one
enqueue and one successful promotion has at most one pending row. -/
theorem single_pending_invariant_witness : pendingCount s2W ≤ 1 := by
  have h1 : Reach s0W s1W :=
    Reach.step Reach.refl (Step.enqueue s0W "a" "t" "x" "u" 0)
  have hstep : Step s1W s2W := by
    refine Step.promote s1W (some rowW) (SendOutcome.ok "m") ?_ ?_
    · intro r h
      injection h with h2
      rw [← h2]
      decide
    · intro h
      exact absurd h (by simp)
  exact (single_pending_invariant s0W (by decide) (by decide) s2W
    (Reach.step h1 hstep)).1

/-- Claim C6 counterexample: in a store with two queued rows sharing the
same created_at, the earliest-queued query (ORDER BY created_at only) may
return the row with the larger id even though a tied row with a smaller
id exists, so the claimed record-id tiebreak does not hold. -/
theorem fifo_tiebreak_cex :
    validEarliestQueued sTie rowTie2 ∧ rowTie1 ∈ sTie.rows ∧
      rowTie1.approval_status = "queued" ∧
      rowTie1.created_at = rowTie2.created_at ∧ ¬ rowTie2.id ≤ rowTie1.id := by
  decide

/-- Claim C6 (corrected): any result of the earliest-queued query is a
stored queued row of minimal created_at — never a younger row while an
older queued row exists — and when the queued rows have pairwise distinct
created_at the result is uniquely determined; promoting such a result
marks exactly it pending.  The query imposes no record-id tiebreak among
rows with equal created_at (see the counterexample). -/
theorem earliest_queued_minimal_unique (s : Store) (r r2 : TweetRow)
    (h : validEarliestQueued s r) :
    (r ∈ s.rows ∧ r.approval_status = "queued" ∧
      ∀ q ∈ s.rows, q.approval_status = "queued" →
        r.created_at ≤ q.created_at) ∧
    (validEarliestQueued s r2 →
      (∀ a ∈ s.rows, ∀ b ∈ s.rows, a.approval_status = "queued" →
        b.approval_status = "queued" → a.created_at = b.created_at → a = b) →
      r = r2) ∧
    (is_any_tweet_pending s = false → s.WF → ∀ mid,
      statusOf (promoteStore s (some r) (SendOutcome.ok mid)) r.id =
        some "pending") := by
  refine ⟨h, ?_, ?_⟩
  · intro h2 hdist
    have h12 : r.created_at ≤ r2.created_at := h.2.2 r2 h2.1 h2.2.1
    have h21 : r2.created_at ≤ r.created_at := h2.2.2 r h.1 h.2.1
    exact hdist r h.1 r2 h2.1 h.2.1 h2.2.1 (le_antisymm h12 h21)
  · intro hp hwf mid
    rw [promoteStore_ok s r mid hp]
    have hb0 : getById s r.id = some r := getById_of_mem hwf h.1
    have hb : getById (update_telegram_message_id s r.id mid) r.id =
        some { r with telegram_message_id := some mid } := by
      unfold update_telegram_message_id
      rw [getById_updateRow s r.id r.id
        (fun x => { x with telegram_message_id := some mid }) (fun _ => rfl),
        hb0]
      simp
    exact statusOf_update_approval_self "pending" hb

/-- Witness for C6: promoting the uniquely oldest queued row of a
two-row store marks it pending. -/
theorem earliest_queued_minimal_unique_witness :
    statusOf (promoteStore sD (some rowD1) (SendOutcome.ok "77")) rowD1.id =
      some "pending" :=
  (earliest_queued_minimal_unique sD rowD1 rowD1 (by decide)).2.2
    (by decide) (by decide) "77"

/-- Claim C7 counterexample: a failing Telegram send during promotion of
a concrete queued row is caught inside
send_earliest_queued_tweet_for_approval — the function returns normally
with the store unchanged instead of propagating the error. -/
theorem delivery_error_swallowed_cex :
    validEarliestQueued sD rowD1 ∧ is_any_tweet_pending sD = false ∧
      send_earliest_queued_tweet_for_approval sD (some rowD1)
        SendOutcome.err = Except.ok sD := by
  refine ⟨by decide, rfl, rfl⟩

/-- Claim C7 (corrected): when the review-channel send fails during
promotion, send_earliest_queued_tweet_for_approval catches the exception
(its except clause only logs) and returns normally with the store
unchanged: no error propagates to the caller, and no row is marked
pending without an outstanding review request. -/
theorem delivery_error_swallowed (s : Store) (pick : Option TweetRow) :
    send_earliest_queued_tweet_for_approval s pick SendOutcome.err =
      Except.ok s := by
  unfold send_earliest_queued_tweet_for_approval
  by_cases h : is_any_tweet_pending s <;> cases pick <;> simp [h]

/-- Claim C8 counterexample: ingesting the URL u in two separate runs
from an empty store leaves two stored records with that URL, not exactly
one, because the first run generates two tweet texts for the one article
and stores one record per text. -/
theorem dedup_exactly_one_cex :
    countUrl
      (process_substack_feeds
        (process_substack_feeds s0W [articleU] (fun _ => ["t1", "t2"]) 0)
        [articleU] (fun _ => ["t3"]) 1) "u" = 2 := by
  decide

/-- Claim C8 (corrected): once any stored record has web_url u, a
pull-ingestion run (its dedup index loaded fresh at the start) creates no
further records with web_url u — the count for u is unchanged.  Exactly
one record across two runs holds only when the first run stores exactly
one record for u; a single article can yield several records with the
same URL when generation returns several texts (see the counterexample). -/
theorem dedup_no_reingest (s : Store) (articles : List Article)
    (gen : Article → List String) (t : Nat) (u : String)
    (h : ∃ r ∈ s.rows, r.web_url = u) :
    countUrl (process_substack_feeds s articles gen t) u = countUrl s u := by
  unfold process_substack_feeds
  apply countUrl_ingestArticles
  intro a ha
  have hp := List.of_mem_filter ha
  simp only [decide_eq_true_eq] at hp
  intro hlink
  apply hp
  rw [hlink]
  unfold get_all_existing_web_urls
  rcases h with ⟨r, hr, hru⟩
  rw [← hru]
  exact List.mem_map_of_mem _ hr

/-- Witness for C8: re-ingesting the already-stored URL u adds no record
for it. -/
theorem dedup_no_reingest_witness :
    countUrl (process_substack_feeds sU [articleU] (fun _ => ["t9"]) 5) "u" =
      countUrl sU "u" :=
  dedup_no_reingest sU [articleU] (fun _ => ["t9"]) 5 "u"
    ⟨rowU, by decide, by decide⟩

/-- Claim C9 counterexample: for a text message that is not a reply,
parse_telegram_webhook does not return none — it returns the parsed event
with an empty reply_to_message_id. -/
theorem parse_nonreply_not_null_cex :
    parse_telegram_webhook payloadNR =
      some { message_id := "7", text := "hello", reply_to_message_id := "",
             chat_id := "5" } ∧ parse_telegram_webhook payloadNR ≠ none := by
  decide

/-- Claim C9 (corrected): parse_telegram_webhook returns none for
payloads without a message, for messages without text, and (via the
caught KeyError) when the message id or chat id is missing; for a text
message with the required fields it always returns the event — with
reply_to_message_id the replied-to id for replies and the empty string
for non-replies — and the handler, not the parser, short-circuits
non-replies with the informational not-a-reply response. -/
theorem parse_webhook_contract (m : TgMessage) (mid cid : Nat) (t : String) :
    parse_telegram_webhook { message := none } = none ∧
    parse_telegram_webhook { message := some { m with text := none } } =
      none ∧
    parse_telegram_webhook (mkMsgPayload mid cid t none) =
      some { message_id := toString mid, text := t,
             reply_to_message_id := "", chat_id := toString cid } ∧
    (∀ rid, parse_telegram_webhook (mkMsgPayload mid cid t (some (some rid))) =
      some { message_id := toString mid, text := t,
             reply_to_message_id := toString rid,
             chat_id := toString cid }) ∧
    (∀ (s : Store) (po : Except String String)
        (pick : Store → Option TweetRow) (oc : SendOutcome),
      telegram_webhook s (mkMsgPayload mid cid t none) po pick oc =
        noopResult s "Not a reply to a tweet") := by
  refine ⟨rfl, rfl, rfl, fun rid => rfl, fun s po pick oc => rfl⟩

/-- Claim C2 counterexample: a concrete matched reply that resolves to
approve (the record ends approved and a publish was attempted), whose
publish throws, after which the handler has called
send_earliest_queued_tweet_for_approval zero times, not once. -/
theorem publish_failure_skips_promotion_cex :
    statusOf (telegram_webhook sA payloadA (Except.error "boom") pickNone
      SendOutcome.err).store rowA.id = some "approved" ∧
    (telegram_webhook sA payloadA (Except.error "boom") pickNone
      SendOutcome.err).posts = ["orig\nhttp://u"] ∧
    (telegram_webhook sA payloadA (Except.error "boom") pickNone
      SendOutcome.err).promoteCalls = 0 := by
  decide

/-- Claim C2 (corrected): for a matched reply classified approve, the
handler calls send_earliest_queued_tweet_for_approval exactly once when
the publish succeeds and zero times when the publish throws — queue
advancement after an approve resolution is conditional on publish
success, not unconditional. -/
theorem promotion_iff_publish_success (s : Store) (w : TgUpdate)
    (md : TgParsed) (rec : TweetRow) (pick : Store → Option TweetRow)
    (oc : SendOutcome) (xid e : String)
    (hparse : parse_telegram_webhook w = some md)
    (hreply : md.reply_to_message_id ≠ "")
    (hrec : get_tweet_by_telegram_message_id s md.reply_to_message_id = some rec)
    (happ : pyLower (pyStrip md.text) ∉ rejectTexts) :
    (telegram_webhook s w (Except.ok xid) pick oc).promoteCalls = 1 ∧
    (telegram_webhook s w (Except.error e) pick oc).promoteCalls = 0 := by
  rw [telegram_webhook_resolves s w _ pick oc md rec hparse hreply hrec,
    telegram_webhook_resolves s w _ pick oc md rec hparse hreply hrec,
    resolveReply_ok s md rec xid pick oc happ,
    resolveReply_error s md rec e pick oc happ]
  exact ⟨rfl, rfl⟩

/-- Witness for C2: on the concrete approve reply, one promotion call
when the publish succeeds, none when it throws. -/
theorem promotion_iff_publish_success_witness :
    (telegram_webhook sA payloadA (Except.ok "x1") pickNone
      SendOutcome.err).promoteCalls = 1 ∧
    (telegram_webhook sA payloadA (Except.error "boom") pickNone
      SendOutcome.err).promoteCalls = 0 :=
  promotion_iff_publish_success sA payloadA
    { message_id := "7", text := "yes", reply_to_message_id := "100",
      chat_id := "5" }
    rowA pickNone SendOutcome.err "x1" "boom"
    (by decide) (by decide) (by decide) (by decide)

/-- Claim C3 counterexample: a concrete matched reply that resolves to
approve and whose publish throws makes the webhook respond with a non-200
status (HTTPException 500), contradicting the claimed HTTP 200. -/
theorem publish_failure_http500_cex :
    statusOf (telegram_webhook sA payloadA (Except.error "boom") pickNone
      SendOutcome.err).store rowA.id = some "approved" ∧
    (telegram_webhook sA payloadA (Except.error "boom") pickNone
      SendOutcome.err).status ≠ 200 := by
  decide

/-- Claim C3 (corrected): when the publish throws on an approve
resolution, the handler records post_status failed and sends the failure
notification, but then raises HTTPException 500 — the webhook response is
500, not 200. -/
theorem publish_failure_returns_500 (s : Store) (w : TgUpdate)
    (md : TgParsed) (rec : TweetRow) (pick : Store → Option TweetRow)
    (oc : SendOutcome) (e : String) (hwf : s.WF)
    (hparse : parse_telegram_webhook w = some md)
    (hreply : md.reply_to_message_id ≠ "")
    (hrec : get_tweet_by_telegram_message_id s md.reply_to_message_id = some rec)
    (happ : pyLower (pyStrip md.text) ∉ rejectTexts) :
    (telegram_webhook s w (Except.error e) pick oc).status = 500 ∧
    postStatusOf (telegram_webhook s w (Except.error e) pick oc).store
      rec.id = some "failed" ∧
    (telegram_webhook s w (Except.error e) pick oc).notifications =
      [Notification.postFailed e] := by
  rw [telegram_webhook_resolves s w _ pick oc md rec hparse hreply hrec,
    resolveReply_error s md rec e pick oc happ]
  refine ⟨rfl, ?_, rfl⟩
  have hmem : rec ∈ s.rows := tweet_by_mid_mem hrec
  have hb : getById (update_approval_status s rec.id "approved") rec.id =
      some { rec with approval_status := "approved" } := by
    unfold update_approval_status
    rw [getById_updateRow s rec.id rec.id
      (fun x => { x with approval_status := "approved" }) (fun _ => rfl),
      getById_of_mem hwf hmem]
    simp
  exact postStatusOf_update_post_self "failed" none hb

/-- Witness for C3: the concrete failing publish yields status 500, a
failed post_status and the failure notification. -/
theorem publish_failure_returns_500_witness :
    (telegram_webhook sA payloadA (Except.error "boom") pickNone
      SendOutcome.err).status = 500 ∧
    postStatusOf (telegram_webhook sA payloadA (Except.error "boom") pickNone
      SendOutcome.err).store rowA.id = some "failed" ∧
    (telegram_webhook sA payloadA (Except.error "boom") pickNone
      SendOutcome.err).notifications = [Notification.postFailed "boom"] :=
  publish_failure_returns_500 sA payloadA
    { message_id := "7", text := "yes", reply_to_message_id := "100",
      chat_id := "5" }
    rowA pickNone SendOutcome.err "boom"
    (by decide) (by decide) (by decide) (by decide) (by decide)

/-- Claim C4 counterexample: resolving the same review message id twice
with an approving reply performs the publish side effect in both
invocations (one post each time), so one item is published twice. -/
theorem duplicate_publish_cex :
    (telegram_webhook sA payloadA (Except.ok "x1") pickNone
      SendOutcome.err).posts.length = 1 ∧
    (telegram_webhook
      (telegram_webhook sA payloadA (Except.ok "x1") pickNone
        SendOutcome.err).store
      payloadA (Except.ok "x2") pickNone SendOutcome.err).posts.length = 1 := by
  decide

/-- Claim C4 (corrected): the handler attempts the publish on every
approve-classified reply that matches a stored record, regardless of the
current approvalState or publishState of that record; resolution neither
clears telegram_message_id nor checks the state, so resolving the same
review message id twice publishes twice. -/
theorem approve_always_publishes (s : Store) (w : TgUpdate) (md : TgParsed)
    (rec : TweetRow) (po : Except String String)
    (pick : Store → Option TweetRow) (oc : SendOutcome)
    (hparse : parse_telegram_webhook w = some md)
    (hreply : md.reply_to_message_id ≠ "")
    (hrec : get_tweet_by_telegram_message_id s md.reply_to_message_id = some rec)
    (happ : pyLower (pyStrip md.text) ∉ rejectTexts) :
    (telegram_webhook s w po pick oc).posts =
      [appendWebUrl (if pyLower (pyStrip md.text) ∈ approveTexts then
        rec.tweet_text else pyStrip md.text) rec.web_url] := by
  rw [telegram_webhook_resolves s w po pick oc md rec hparse hreply hrec]
  cases po with
  | ok xid => rw [resolveReply_ok s md rec xid pick oc happ]
  | error e => rw [resolveReply_error s md rec e pick oc happ]

lemma approve_not_reject {x : String} (h : x ∈ approveTexts) :
    x ∉ rejectTexts := by
  fin_cases h <;> decide

lemma statusOf_after_reject (s : Store) (rec : TweetRow)
    (pick : Store → Option TweetRow) (oc : SendOutcome) (hwf : s.WF)
    (hpick : PickValid pick) (hmem : rec ∈ s.rows) :
    statusOf (promoteStore (update_approval_status s rec.id "rejected")
      (pick (update_approval_status s rec.id "rejected")) oc) rec.id =
      some "rejected" := by
  have h1 : statusOf (update_approval_status s rec.id "rejected") rec.id =
      some "rejected" :=
    statusOf_update_approval_self "rejected" (getById_of_mem hwf hmem)
  rw [statusOf_promote_of_ne_queued _ _ oc rec.id
    (WF_update_approval _ _ _ hwf) (fun r hp => hpick _ r hp) (by simp [h1])]
  exact h1

lemma statusOf_after_approve_ok (s : Store) (rec : TweetRow) (xid : String)
    (pick : Store → Option TweetRow) (oc : SendOutcome) (hwf : s.WF)
    (hpick : PickValid pick) (hmem : rec ∈ s.rows) :
    statusOf (promoteStore
      (update_post_status (update_approval_status s rec.id "approved")
        rec.id "posted" (some xid))
      (pick (update_post_status (update_approval_status s rec.id "approved")
        rec.id "posted" (some xid))) oc) rec.id = some "approved" := by
  have h1 : statusOf (update_approval_status s rec.id "approved") rec.id =
      some "approved" :=
    statusOf_update_approval_self "approved" (getById_of_mem hwf hmem)
  have h2 : statusOf (update_post_status
      (update_approval_status s rec.id "approved") rec.id "posted" (some xid))
      rec.id = some "approved" := by
    rw [statusOf_update_post]
    exact h1
  rw [statusOf_promote_of_ne_queued _ _ oc rec.id
    (WF_update_post _ _ _ _ (WF_update_approval _ _ _ hwf))
    (fun r hp => hpick _ r hp) (by simp [h2])]
  exact h2

lemma statusOf_after_approve_error (s : Store) (rec : TweetRow)
    (hwf : s.WF) (hmem : rec ∈ s.rows) :
    statusOf (update_post_status (update_approval_status s rec.id "approved")
      rec.id "failed" none) rec.id = some "approved" := by
  rw [statusOf_update_post]
  exact statusOf_update_approval_self "approved" (getById_of_mem hwf hmem)

/-- Claim C5 (confirmed): for a reply matched to a stored record, after
stripping and lowercasing, a text in the reject set yields
approvalState rejected with no publish attempt; a text in the approve set
yields approvalState approved with the stored tweet text published (web
URL appended when present); and any other nonempty text yields
approvalState approved with the stripped reply text published in place of
the stored text (web URL appended when present). -/
theorem reply_classification (s : Store) (w : TgUpdate) (md : TgParsed)
    (rec : TweetRow) (po : Except String String)
    (pick : Store → Option TweetRow) (oc : SendOutcome)
    (hwf : s.WF) (hpick : PickValid pick)
    (hparse : parse_telegram_webhook w = some md)
    (hreply : md.reply_to_message_id ≠ "")
    (hrec : get_tweet_by_telegram_message_id s md.reply_to_message_id = some rec) :
    (pyLower (pyStrip md.text) ∈ rejectTexts →
      statusOf (telegram_webhook s w po pick oc).store rec.id =
        some "rejected" ∧
      (telegram_webhook s w po pick oc).posts = []) ∧
    (pyLower (pyStrip md.text) ∈ approveTexts →
      statusOf (telegram_webhook s w po pick oc).store rec.id =
        some "approved" ∧
      (telegram_webhook s w po pick oc).posts =
        [appendWebUrl rec.tweet_text rec.web_url]) ∧
    (pyLower (pyStrip md.text) ∉ rejectTexts →
      pyLower (pyStrip md.text) ∉ approveTexts → pyStrip md.text ≠ "" →
      statusOf (telegram_webhook s w po pick oc).store rec.id =
        some "approved" ∧
      (telegram_webhook s w po pick oc).posts =
        [appendWebUrl (pyStrip md.text) rec.web_url]) := by
  have hmem : rec ∈ s.rows := tweet_by_mid_mem hrec
  rw [telegram_webhook_resolves s w po pick oc md rec hparse hreply hrec]
  refine ⟨?_, ?_, ?_⟩
  · intro h
    rw [resolveReply_reject s md rec po pick oc h]
    exact ⟨statusOf_after_reject s rec pick oc hwf hpick hmem, rfl⟩
  · intro h
    have hnr : pyLower (pyStrip md.text) ∉ rejectTexts := approve_not_reject h
    cases po with
    | ok xid =>
      rw [resolveReply_ok s md rec xid pick oc hnr]
      exact ⟨statusOf_after_approve_ok s rec xid pick oc hwf hpick hmem,
        by simp [h]⟩
    | error e =>
      rw [resolveReply_error s md rec e pick oc hnr]
      exact ⟨statusOf_after_approve_error s rec hwf hmem, by simp [h]⟩
  · intro hnr hna _
    cases po with
    | ok xid =>
      rw [resolveReply_ok s md rec xid pick oc hnr]
      exact ⟨statusOf_after_approve_ok s rec xid pick oc hwf hpick hmem,
        by simp [hna]⟩
    | error e =>
      rw [resolveReply_error s md rec e pick oc hnr]
      exact ⟨statusOf_after_approve_error s rec hwf hmem, by simp [hna]⟩

/-- Witness for C5: the concrete reject reply leaves the record rejected
with no publish attempt. -/
theorem reply_classification_witness :
    statusOf (telegram_webhook sA payloadReject (Except.ok "x") pickNone
      SendOutcome.err).store rowA.id = some "rejected" ∧
    (telegram_webhook sA payloadReject (Except.ok "x") pickNone
      SendOutcome.err).posts = [] :=
  (reply_classification sA payloadReject
    { message_id := "8", text := "no", reply_to_message_id := "100",
      chat_id := "5" }
    rowA (Except.ok "x") pickNone SendOutcome.err
    (by decide) (fun s r h => nomatch h) (by decide) (by decide)
    (by decide)).1 (by decide)

/-- Claim C10 (confirmed): a reply whose text is empty or whitespace-only
and that matches a stored record is classified edit-and-approve: the
record becomes approved and the publish is attempted with a newline
followed by the web URL (or the empty string when the record has no web
URL), rather than the reply being ignored or rejected. -/
theorem empty_reply_edit_approve (s : Store) (w : TgUpdate) (md : TgParsed)
    (rec : TweetRow) (po : Except String String)
    (pick : Store → Option TweetRow) (oc : SendOutcome)
    (hwf : s.WF) (hpick : PickValid pick)
    (hparse : parse_telegram_webhook w = some md)
    (hreply : md.reply_to_message_id ≠ "")
    (hrec : get_tweet_by_telegram_message_id s md.reply_to_message_id = some rec)
    (hws : pyStrip md.text = "") :
    statusOf (telegram_webhook s w po pick oc).store rec.id =
      some "approved" ∧
    (telegram_webhook s w po pick oc).posts =
      [if rec.web_url = "" then "" else "\n" ++ rec.web_url] := by
  have hmem : rec ∈ s.rows := tweet_by_mid_mem hrec
  have hlow : pyLower (pyStrip md.text) = "" := by rw [hws]; rfl
  have hnr : pyLower (pyStrip md.text) ∉ rejectTexts := by rw [hlow]; decide
  have hna : pyLower (pyStrip md.text) ∉ approveTexts := by rw [hlow]; decide
  have hpost : appendWebUrl (if pyLower (pyStrip md.text) ∈ approveTexts then
      rec.tweet_text else pyStrip md.text) rec.web_url =
      if rec.web_url = "" then "" else "\n" ++ rec.web_url := by
    rw [if_neg hna, hws]
    unfold appendWebUrl
    by_cases hu : rec.web_url = ""
    · rw [if_pos hu, if_pos hu]
    · rw [if_neg hu, if_neg hu]
      rfl
  rw [telegram_webhook_resolves s w po pick oc md rec hparse hreply hrec]
  cases po with
  | ok xid =>
    rw [resolveReply_ok s md rec xid pick oc hnr]
    refine ⟨statusOf_after_approve_ok s rec xid pick oc hwf hpick hmem, ?_⟩
    show [appendWebUrl (if pyLower (pyStrip md.text) ∈ approveTexts then
      rec.tweet_text else pyStrip md.text) rec.web_url] = _
    rw [hpost]
  | error e =>
    rw [resolveReply_error s md rec e pick oc hnr]
    refine ⟨statusOf_after_approve_error s rec hwf hmem, ?_⟩
    show [appendWebUrl (if pyLower (pyStrip md.text) ∈ approveTexts then
      rec.tweet_text else pyStrip md.text) rec.web_url] = _
    rw [hpost]

/-- Witness for C10: the concrete whitespace-only reply approves the
record and publishes newline plus the stored URL. -/
theorem empty_reply_edit_approve_witness :
    statusOf (telegram_webhook sA payloadWs (Except.ok "x") pickNone
      SendOutcome.err).store rowA.id = some "approved" ∧
    (telegram_webhook sA payloadWs (Except.ok "x") pickNone
      SendOutcome.err).posts =
      [if rowA.web_url = "" then "" else "\n" ++ rowA.web_url] :=
  empty_reply_edit_approve sA payloadWs
    { message_id := "9", text := "   ", reply_to_message_id := "100",
      chat_id := "5" }
    rowA (Except.ok "x") pickNone SendOutcome.err
    (by decide) (fun s r h => nomatch h) (by decide) (by decide) (by decide)
    (by decide)

/-- Witness for C4: the concrete approve reply on an already-pending
record still produces exactly the one publish attempt. -/
theorem approve_always_publishes_witness :
    (telegram_webhook sA payloadA (Except.ok "x1") pickNone
      SendOutcome.err).posts =
      [appendWebUrl (if pyLower (pyStrip "yes") ∈ approveTexts then
        rowA.tweet_text else pyStrip "yes") rowA.web_url] :=
  approve_always_publishes sA payloadA
    { message_id := "7", text := "yes", reply_to_message_id := "100",
      chat_id := "5" }
    rowA (Except.ok "x1") pickNone SendOutcome.err
    (by decide) (by decide) (by decide) (by decide)

end Genie
